import Mathlib

/-!
Verification of the `stock-predictor` pipeline (`src/model.py`).

The module is a three-stage pipeline over a filesystem:
  * `train ticker` downloads OHLC price history, reshapes it to a
    two-column `(ds, y)` frame, fits a Prophet model and dumps it to
    `models/<ticker>.joblib`;
  * `predict ticker days` loads that artifact (returning the Python value
    `False` when the file is absent), builds a daily date grid from
    2020-01-01 through today + days, runs the model over the grid, saves
    two diagnostic figures and returns the last `days` forecast rows;
  * `convert` turns the returned rows into a Python dict mapping
    `strftime("%m/%d/%Y")` date strings to the `trend` field.

The embedding below models dates as day numbers (days since 1970-01-01,
with the Gregorian civil-calendar conversion used for `strftime`), the
filesystem as an association list from path strings to file contents, and
the external libraries (yfinance download, Prophet fitting) as function
parameters, since the repository treats them as opaque dependencies.
Python dicts are modelled as insertion-ordered association lists with
in-place value update, matching CPython semantics.
-/

set_option maxRecDepth 4000

namespace StockPredictor

/-- Gregorian civil date `(year, month, day)` from a day number counted
from 1970-01-01 (day 0).  Standard era-based conversion; all intermediate
quantities are non-negative for `z ≥ 0`, so `Nat` arithmetic suffices. -/
def civilFromDays (z : Nat) : Nat × Nat × Nat :=
  let z' := z + 719468
  let era := z' / 146097
  let doe := z' % 146097
  let yoe := (doe - doe / 1460 + doe / 36524 - doe / 146096) / 365
  let y := yoe + era * 400
  let doy := doe - (365 * yoe + yoe / 4 - yoe / 100)
  let mp := (5 * doy + 2) / 153
  let d := doy - (153 * mp + 2) / 5 + 1
  let m := if mp < 10 then mp + 3 else mp - 9
  (if m ≤ 2 then y + 1 else y, m, d)

/-- Day number (days since 1970-01-01) of a Gregorian civil date; the
inverse of `civilFromDays` on the dates this repository handles
(all of which are ≥ 2020-01-01). -/
def daysFromCivil (y m d : Nat) : Nat :=
  let y' := if m ≤ 2 then y - 1 else y
  let era := y' / 400
  let yoe := y' - era * 400
  let mNum := if 2 < m then m - 3 else m + 9
  let doy := (153 * mNum + 2) / 5 + d - 1
  let doe := yoe * 365 + yoe / 4 - yoe / 100 + doy
  era * 146097 + doe - 719468

/-- Decimal rendering of `n` left-padded with zeros to `w` digits,
as Python's `%m` / `%d` / `%Y` format the fields of a date. -/
def padZero (w n : Nat) : String :=
  let s := toString n
  String.mk (List.replicate (w - s.length) '0') ++ s

/-- `date.strftime("%m/%d/%Y")` on a day number (model.py line 99). -/
def fmtMDY (z : Nat) : String :=
  let c := civilFromDays z
  padZero 2 c.2.1 ++ "/" ++ padZero 2 c.2.2 ++ "/" ++ padZero 4 c.1

/-- The fixed historical start date `"2020-01-01"` (model.py lines 30, 70)
as a day number. -/
def startDate : Nat := daysFromCivil 2020 1 1

/-- One row of the forecast frame returned by `model.predict`.  The code
uses only the `ds` (date) and `trend` columns of Prophet's output, so only
those fields are modelled; numeric values are rationals. -/
structure ForecastRecord where
  ds : Nat
  trend : ℚ
  deriving DecidableEq

/-- A fitted Prophet model: opaque except that it assigns a trend value to
each date.  `model.predict` yields, for each input date `z`, a row with
`ds = z` and `trend = trendAt z`. -/
structure ProphetModel where
  trendAt : Nat → ℚ

/-- One row of the frame returned by `yf.download`: a date index plus the
OHLCV columns.  Only `date` and `adjClose` are consumed by `train`. -/
structure OhlcRow where
  date : Nat
  openPrice : ℚ
  highPrice : ℚ
  lowPrice : ℚ
  closePrice : ℚ
  adjClose : ℚ
  volume : ℚ

/-- One row of the two-column frame `df_forecast[["ds", "y"]]` fed to
`Prophet.fit` (model.py lines 32-36). -/
structure PricePoint where
  ds : Nat
  y : ℚ
  deriving DecidableEq

/-- A file on disk: either a joblib model artifact or a rendered PNG. -/
inductive Entry where
  | model (m : ProphetModel)
  | png

/-- The filesystem: paths to contents, most recent write first. -/
abbrev FS := List (String × Entry)

/-- Read the file at path `p` (most recent write wins). -/
def fsLookup (fs : FS) (p : String) : Option Entry :=
  match fs with
  | [] => Option.none
  | (q, e) :: rest => if p = q then some e else fsLookup rest p

/-- Write contents `e` at path `p`, shadowing any previous file there. -/
def fsWrite (fs : FS) (p : String) (e : Entry) : FS := (p, e) :: fs

/-- `Path(MODEL_DIR).joinpath(f"{ticker}.joblib")` (model.py lines 41, 62),
relative to the package directory. -/
def modelPath (ticker : String) : String := "models/" ++ ticker ++ ".joblib"

/-- `Path(FIG_DIR).joinpath(f"{ticker}_plot.png")` (model.py line 76). -/
def plotPath (ticker : String) : String := "figures/" ++ ticker ++ "_plot.png"

/-- `Path(FIG_DIR).joinpath(f"{ticker}_plot_components.png")`
(model.py line 78). -/
def componentsPath (ticker : String) : String :=
  "figures/" ++ ticker ++ "_plot_components.png"

/-- Lines 32-36 of model.py: copy the downloaded frame, set
`ds = Date` and `y = Adj Close`, keep only those two columns. -/
def prepareForecastFrame (data : List OhlcRow) : List PricePoint :=
  data.map fun r => ⟨r.date, r.adjClose⟩

/-- `train` (model.py lines 19-41).  The Yahoo Finance download and the
Prophet fitting procedure are opaque external dependencies, passed as the
parameters `download` (ticker, start date, end date ↦ rows) and `fit`;
`today` is the module constant `TODAY`.  The function downloads history
from the fixed start date through today, reshapes it, fits a model and
dumps the artifact at `modelPath ticker`. -/
def train (download : String → Nat → Nat → List OhlcRow)
    (fit : List PricePoint → ProphetModel)
    (today : Nat) (ticker : String) (fs : FS) : FS :=
  let data := download ticker startDate today
  let dfForecast := prepareForecastFrame data
  let model := fit dfForecast
  fsWrite fs (modelPath ticker) (Entry.model model)

/-- `pd.date_range(start, end)`: every day from `a` through `b`
inclusive, empty when `b < a` (model.py line 70). -/
def dateRange (a b : Nat) : List Nat := List.range' a (b + 1 - a)

/-- `DataFrame.tail(n)`: the last `n` elements (all of them when the list
is shorter), as used in `forecast.tail(days)` (model.py line 80). -/
def tailN (n : Nat) (l : List α) : List α := l.drop (l.length - n)

/-- A Python value returned by `predict`: the code can produce `False`
(no artifact), or a list of forecast records; its docstring also promises
`None`, so that value is representable for comparison. -/
inductive PyValue where
  | none
  | bool (b : Bool)
  | records (l : List ForecastRecord)
  deriving DecidableEq

/-- Outcome of running `predict`: either an uncaught exception
(e.g. `joblib.load` on bytes that are not a model artifact), or a normal
return value together with the filesystem after the call's writes. -/
inductive POutcome where
  | raised
  | ok (v : PyValue) (fs : FS)

/-- The returned Python value of an outcome, if it returned at all. -/
def POutcome.value : POutcome → Option PyValue
  | POutcome.raised => Option.none
  | POutcome.ok v _ => some v

/-- `predict` (model.py lines 44-80).  If no artifact file exists for the
ticker it returns the Python constant `False` (line 64).  Otherwise it
loads the model, builds the daily grid from 2020-01-01 through
`today + days`, runs the model over the whole grid, saves the two
diagnostic figures, and returns the last `days` rows of the forecast. -/
def predict (today : Nat) (ticker : String) (days : Nat) (fs : FS) : POutcome :=
  match fsLookup fs (modelPath ticker) with
  | Option.none => POutcome.ok (PyValue.bool false) fs
  | some (Entry.png) => POutcome.raised
  | some (Entry.model model) =>
    let future := today + days
    let dates := dateRange startDate future
    let forecast := dates.map fun z => ForecastRecord.mk z (model.trendAt z)
    let fs₁ := fsWrite fs (plotPath ticker) Entry.png
    let fs₂ := fsWrite fs₁ (componentsPath ticker) Entry.png
    POutcome.ok (PyValue.records (tailN days forecast)) fs₂

/-- Assignment `output[date] = value` on a CPython dict rendered as an
insertion-ordered association list: an existing key keeps its position and
gets the new value, a new key is appended at the end. -/
def dictInsert (m : List (String × ℚ)) (k : String) (v : ℚ) :
    List (String × ℚ) :=
  if k ∈ m.map Prod.fst then
    m.map (fun p => if p.1 = k then (k, v) else p)
  else m ++ [(k, v)]

/-- Dict read `m[k]`. -/
def dictLookup (m : List (String × ℚ)) (k : String) : Option ℚ :=
  match m with
  | [] => Option.none
  | (q, v) :: rest => if k = q then some v else dictLookup rest k

/-- `convert` (model.py lines 82-101): fold over the prediction list,
assigning `output[data["ds"].strftime("%m/%d/%Y")] = data["trend"]`. -/
def convert (predictionList : List ForecastRecord) : List (String × ℚ) :=
  predictionList.foldl (fun output data => dictInsert output (fmtMDY data.ds) data.trend) []

/-- Specification-side description of dict overwriting: the trend of the
last record in the list whose formatted date is `k`, if any.  `Option.or`
prefers its first argument, so records later in the list take precedence. -/
def lastMatchTrend (k : String) : List ForecastRecord → Option ℚ
  | [] => Option.none
  | r :: rest =>
      (lastMatchTrend k rest).or
        (if fmtMDY r.ds = k then some r.trend else Option.none)

/-- The `__main__` block (model.py lines 104-113): parse `--ticker` and
`--days`, then unconditionally `train`, `predict`, `convert`, `print`.
The result is the printed date-to-trend mapping and the final filesystem;
`Option.none` stands for an uncaught exception (in the Python source,
`convert` would raise a `TypeError` if `predict` returned `False`, and
`predict` itself could raise). -/
def mainRun (download : String → Nat → Nat → List OhlcRow)
    (fit : List PricePoint → ProphetModel)
    (today : Nat) (ticker : String) (days : Nat) (fs : FS) :
    Option (List (String × ℚ) × FS) :=
  let fs₁ := train download fit today ticker fs
  match predict today ticker days fs₁ with
  | POutcome.ok (PyValue.records predictionList) fs₂ =>
      some (convert predictionList, fs₂)
  | _ => Option.none

/-- A concrete fitted model (constant trend) used to instantiate the
theorems on executable inputs. -/
def constModel : ProphetModel := ⟨fun _ => 0⟩

/-- A concrete filesystem holding one artifact for ticker `"MSFT"`. -/
def demoFS : FS := [(modelPath "MSFT", Entry.model constModel)]

/-- A concrete stand-in for the Yahoo Finance downloader. -/
def demoDownload : String → Nat → Nat → List OhlcRow := fun _ _ _ => []

/-- A concrete stand-in for the Prophet fitting procedure. -/
def demoFit : List PricePoint → ProphetModel := fun _ => constModel

/-! ### Lemmas about the Python-dict model -/

theorem dictLookup_cons (q : String) (b : ℚ) (m : List (String × ℚ))
    (k : String) :
    dictLookup ((q, b) :: m) k = if k = q then some b else dictLookup m k := rfl

theorem dictLookup_map_update_ne (k k' : String) (v : ℚ) (h : k ≠ k') :
    ∀ m : List (String × ℚ),
      dictLookup (m.map fun p => if p.1 = k' then (k', v) else p) k
        = dictLookup m k := by
  intro m
  induction m with
  | nil => rfl
  | cons a m ih =>
    obtain ⟨q, b⟩ := a
    by_cases hq : q = k'
    · subst hq
      have hhead : (if (q, b).1 = q then ((q, v) : String × ℚ) else (q, b))
          = (q, v) := if_pos rfl
      rw [List.map_cons, hhead, dictLookup_cons, dictLookup_cons, ih,
        if_neg h, if_neg h]
    · have hhead : (if (q, b).1 = k' then ((k', v) : String × ℚ) else (q, b))
          = (q, b) := if_neg hq
      rw [List.map_cons, hhead, dictLookup_cons, dictLookup_cons, ih]

theorem dictLookup_map_update_self (k' : String) (v : ℚ) :
    ∀ m : List (String × ℚ), k' ∈ m.map Prod.fst →
      dictLookup (m.map fun p => if p.1 = k' then (k', v) else p) k'
        = some v := by
  intro m
  induction m with
  | nil => intro h; simp at h
  | cons a m ih =>
    obtain ⟨q, b⟩ := a
    intro h
    by_cases hq : q = k'
    · subst hq
      have hhead : (if (q, b).1 = q then ((q, v) : String × ℚ) else (q, b))
          = (q, v) := if_pos rfl
      rw [List.map_cons, hhead, dictLookup_cons, if_pos rfl]
    · have h' : k' ∈ m.map Prod.fst := by
        have h2 : k' = q ∨ ∃ x, (k', x) ∈ m := by simpa using h
        rcases h2 with h₀ | ⟨x, hx⟩
        · exact absurd h₀.symm hq
        · exact List.mem_map_of_mem Prod.fst hx
      have hhead : (if (q, b).1 = k' then ((k', v) : String × ℚ) else (q, b))
          = (q, b) := if_neg hq
      rw [List.map_cons, hhead, dictLookup_cons, if_neg (Ne.symm hq), ih h']

theorem dictLookup_append (k : String) :
    ∀ m₁ m₂ : List (String × ℚ),
      dictLookup (m₁ ++ m₂) k = (dictLookup m₁ k).or (dictLookup m₂ k) := by
  intro m₁ m₂
  induction m₁ with
  | nil => simp [dictLookup]
  | cons a m ih =>
    obtain ⟨q, b⟩ := a
    by_cases hq : k = q
    · simp [dictLookup, hq]
    · simp [dictLookup, hq, ih]

theorem dictLookup_of_not_contains (k : String) :
    ∀ m : List (String × ℚ), k ∉ m.map Prod.fst →
      dictLookup m k = Option.none := by
  intro m
  induction m with
  | nil => intro _; rfl
  | cons a m ih =>
    obtain ⟨q, b⟩ := a
    intro h
    have hq : k ≠ q := by
      intro hkq; exact h (by simp [hkq])
    have hm : k ∉ m.map Prod.fst := by
      intro hmem; exact h (by simp; right; simpa using hmem)
    simp [dictLookup, hq, ih hm]

theorem dictLookup_dictInsert (m : List (String × ℚ)) (k k' : String) (v : ℚ) :
    dictLookup (dictInsert m k' v) k
      = if k = k' then some v else dictLookup m k := by
  unfold dictInsert
  by_cases hmem : k' ∈ m.map Prod.fst
  · rw [if_pos hmem]
    by_cases hk : k = k'
    · subst hk
      rw [dictLookup_map_update_self k v m hmem, if_pos rfl]
    · rw [dictLookup_map_update_ne k k' v hk m, if_neg hk]
  · rw [if_neg hmem, dictLookup_append]
    by_cases hk : k = k'
    · subst hk
      rw [dictLookup_of_not_contains k m hmem]
      simp [dictLookup]
    · simp [dictLookup, hk]

theorem convert_foldl_lookup (k : String) :
    ∀ (l : List ForecastRecord) (acc : List (String × ℚ)),
      dictLookup
          (l.foldl (fun output data =>
            dictInsert output (fmtMDY data.ds) data.trend) acc) k
        = (lastMatchTrend k l).or (dictLookup acc k) := by
  intro l
  induction l with
  | nil => intro acc; simp [lastMatchTrend]
  | cons r l ih =>
    intro acc
    simp only [List.foldl_cons, lastMatchTrend]
    rw [ih, dictLookup_dictInsert, Option.or_assoc]
    congr 1
    by_cases hk : k = fmtMDY r.ds
    · simp [hk, Option.or_some]
    · simp [hk, Ne.symm hk, Option.none_or]

/-- The value `convert` records under key `k` is the trend of the last
input record whose formatted date is `k`. -/
theorem convert_lookup (l : List ForecastRecord) (k : String) :
    dictLookup (convert l) k = lastMatchTrend k l := by
  unfold convert
  rw [convert_foldl_lookup k l []]
  simp [dictLookup]

theorem lastMatchTrend_eq_none (k : String) :
    ∀ l : List ForecastRecord, (∀ r ∈ l, fmtMDY r.ds ≠ k) →
      lastMatchTrend k l = Option.none := by
  intro l
  induction l with
  | nil => intro _; rfl
  | cons r l ih =>
    intro h
    have hr : fmtMDY r.ds ≠ k := h r (List.mem_cons_self r l)
    have hl : ∀ r' ∈ l, fmtMDY r'.ds ≠ k :=
      fun r' hr' => h r' (List.mem_cons_of_mem r hr')
    simp [lastMatchTrend, hr, ih hl]

theorem lastMatchTrend_of_nodup :
    ∀ l : List ForecastRecord,
      (l.map fun r => fmtMDY r.ds).Nodup →
      ∀ r ∈ l, lastMatchTrend (fmtMDY r.ds) l = some r.trend := by
  intro l
  induction l with
  | nil => intro _ r hr; cases hr
  | cons a l ih =>
    intro hnd r hr
    rw [List.map_cons, List.nodup_cons] at hnd
    rcases List.mem_cons.mp hr with hra | hrl
    · subst hra
      have hnone : lastMatchTrend (fmtMDY r.ds) l = Option.none := by
        apply lastMatchTrend_eq_none
        intro r' hr' heq
        have hmm : fmtMDY r'.ds ∈ l.map fun x => fmtMDY x.ds :=
          List.mem_map.mpr ⟨r', hr', rfl⟩
        rw [heq] at hmm
        exact hnd.1 hmm
      simp [lastMatchTrend, hnone]
    · have := ih hnd.2 r hrl
      simp [lastMatchTrend, this, Option.or_some]

theorem convert_foldl_keys :
    ∀ (l : List ForecastRecord) (acc : List (String × ℚ)),
      (l.map fun r => fmtMDY r.ds).Nodup →
      (∀ r ∈ l, fmtMDY r.ds ∉ acc.map Prod.fst) →
      (l.foldl (fun output data =>
          dictInsert output (fmtMDY data.ds) data.trend) acc).map Prod.fst
        = acc.map Prod.fst ++ l.map fun r => fmtMDY r.ds := by
  intro l
  induction l with
  | nil => intro acc _ _; simp
  | cons r l ih =>
    intro acc hnd hacc
    rw [List.map_cons, List.nodup_cons] at hnd
    have hr : fmtMDY r.ds ∉ acc.map Prod.fst :=
      hacc r (List.mem_cons_self r l)
    have hstep : dictInsert acc (fmtMDY r.ds) r.trend
        = acc ++ [(fmtMDY r.ds, r.trend)] := by
      unfold dictInsert
      rw [if_neg hr]
    simp only [List.foldl_cons, hstep]
    rw [ih (acc ++ [(fmtMDY r.ds, r.trend)]) hnd.2]
    · simp
    · intro r' hr'
      have hne : fmtMDY r'.ds ≠ fmtMDY r.ds := by
        intro heq
        have hmm : fmtMDY r'.ds ∈ l.map fun x => fmtMDY x.ds :=
          List.mem_map.mpr ⟨r', hr', rfl⟩
        rw [heq] at hmm
        exact hnd.1 hmm
      intro hmem
      rw [List.map_append] at hmem
      rcases List.mem_append.mp hmem with h₀ | h₀
      · exact hacc r' (List.mem_cons_of_mem r hr') h₀
      · exact hne (by simpa using h₀)

/-! ### Lemmas about the filesystem model and paths -/

theorem fsLookup_fsWrite_self (fs : FS) (p : String) (e : Entry) :
    fsLookup (fsWrite fs p e) p = some e := by
  simp [fsWrite, fsLookup]

theorem fsLookup_fsWrite_ne (fs : FS) (p p' : String) (e : Entry)
    (h : p' ≠ p) :
    fsLookup (fsWrite fs p e) p' = fsLookup fs p' := by
  simp [fsWrite, fsLookup, h]

theorem modelPath_injective {t t' : String} (h : modelPath t = modelPath t') :
    t = t' := by
  unfold modelPath at h
  have hd := congrArg String.data h
  rw [String.data_append, String.data_append, String.data_append,
    String.data_append] at hd
  exact String.ext (List.append_cancel_left (List.append_cancel_right hd))

theorem plotPath_ne_componentsPath (t : String) :
    plotPath t ≠ componentsPath t := by
  intro h
  have hd := congrArg String.length h
  rw [plotPath, componentsPath, String.length_append, String.length_append,
    String.length_append, String.length_append] at hd
  have h1 : ("_plot.png" : String).length = 9 := rfl
  have h2 : ("_plot_components.png" : String).length = 20 := rfl
  rw [h1, h2] at hd
  omega

/-! ### Lemmas about predict's success path -/

theorem predict_found (today : Nat) (ticker : String) (days : Nat) (fs : FS)
    (m : ProphetModel)
    (h : fsLookup fs (modelPath ticker) = some (Entry.model m)) :
    predict today ticker days fs
      = POutcome.ok
          (PyValue.records (tailN days
            ((dateRange startDate (today + days)).map
              fun z => ForecastRecord.mk z (m.trendAt z))))
          (fsWrite (fsWrite fs (plotPath ticker) Entry.png)
            (componentsPath ticker) Entry.png) := by
  unfold predict
  rw [h]

theorem tailN_map (n : Nat) (f : α → β) (l : List α) :
    tailN n (l.map f) = (tailN n l).map f := by
  unfold tailN
  rw [List.length_map, List.map_drop]

theorem map_ds_map_mk (m : ProphetModel) :
    ∀ l : List Nat,
      ((l.map fun z => ForecastRecord.mk z (m.trendAt z)).map fun r => r.ds)
        = l := by
  intro l
  induction l with
  | nil => rfl
  | cons a l ih => simp [ih]

theorem tailN_dateRange (today days : Nat) (h : startDate ≤ today) :
    tailN days (dateRange startDate (today + days))
      = dateRange (today + 1) (today + days) := by
  unfold dateRange tailN
  rw [List.length_range']
  have hq : today + days + 1 - startDate - days = today + 1 - startDate := by
    omega
  rw [hq]
  have hsplit := List.range'_append_1 startDate (today + 1 - startDate) days
  have h1 : days + (today + 1 - startDate) = today + days + 1 - startDate := by
    omega
  have h2 : startDate + (today + 1 - startDate) = today + 1 := by omega
  rw [h1, h2] at hsplit
  have h3 : today + days + 1 - (today + 1) = days := by omega
  rw [h3, ← hsplit]
  have h4 : today + 1 - startDate
      = (List.range' startDate (today + 1 - startDate)).length := by
    rw [List.length_range']
  nth_rewrite 1 [h4]
  rw [List.drop_left]

/-! ### The claims -/

/-- C1: observed divergence between code and contract.  For a ticker with
no artifact on disk, the code of `predict` returns the Python boolean
`False` (model.py line 64) without raising, while the declared return type
and docstring promise `None`: evaluated on an empty filesystem, the result
is `False`, which is not `None`. -/
theorem predict_no_artifact_returns_false_not_none :
    predict startDate "MSFT" 7 [] = POutcome.ok (PyValue.bool false) []
    ∧ PyValue.bool false ≠ PyValue.none := by
  constructor
  · rfl
  · decide

/-- C2: after `train ticker`, `predict ticker days` succeeds and returns
exactly `days` forecast records, whose dates are the last `days` days of
the full grid: tomorrow through today + days, covering the requested
horizon. -/
theorem train_then_predict_returns_horizon
    (download : String → Nat → Nat → List OhlcRow)
    (fit : List PricePoint → ProphetModel)
    (today : Nat) (ticker : String) (days : Nat) (fs : FS)
    (h : startDate ≤ today) :
    ∃ res fs',
      predict today ticker days (train download fit today ticker fs)
        = POutcome.ok (PyValue.records res) fs'
      ∧ res.length = days
      ∧ res.map (fun r => r.ds) = dateRange (today + 1) (today + days) := by
  have hload : fsLookup (train download fit today ticker fs)
      (modelPath ticker)
      = some (Entry.model
          (fit (prepareForecastFrame (download ticker startDate today)))) := by
    unfold train
    exact fsLookup_fsWrite_self _ _ _
  refine ⟨_, _, predict_found today ticker days _ _ hload, ?_, ?_⟩
  · rw [tailN_map, tailN_dateRange today days h, List.length_map]
    unfold dateRange
    rw [List.length_range']
    omega
  · rw [tailN_map, tailN_dateRange today days h, map_ds_map_mk]

/-- Witness for C2: a concrete run with `today = startDate` returns seven
records. -/
theorem train_then_predict_returns_horizon_witness :
    startDate ≤ startDate
    ∧ ∃ res fs',
        predict startDate "MSFT" 7
            (train demoDownload demoFit startDate "MSFT" [])
          = POutcome.ok (PyValue.records res) fs'
        ∧ res.length = 7
        ∧ res.map (fun r => r.ds) = dateRange (startDate + 1) (startDate + 7) :=
  ⟨le_refl _,
    train_then_predict_returns_horizon demoDownload demoFit startDate "MSFT"
      7 [] (le_refl _)⟩

/-- C3: `convert` maps each record's date, formatted as MM/DD/YYYY, to
that record's trend field (whenever the formatted dates are pairwise
distinct each record is retrievable under its formatted date); on the
literal example of one record with date 2024-01-01 and trend 100.5 it
yields exactly the mapping from "01/01/2024" to 100.5.  `convert` is a
pure function: it touches no filesystem state. -/
theorem convert_formats_dates_to_trends :
    (∀ l : List ForecastRecord,
        (l.map fun r => fmtMDY r.ds).Nodup →
        ∀ r ∈ l, dictLookup (convert l) (fmtMDY r.ds) = some r.trend)
    ∧ convert [⟨daysFromCivil 2024 1 1, (201 : ℚ) / 2⟩]
        = [("01/01/2024", (201 : ℚ) / 2)] := by
  constructor
  · intro l hnd r hr
    rw [convert_lookup]
    exact lastMatchTrend_of_nodup l hnd r hr
  · rfl

/-- Witness for C3: a concrete two-record list with distinct formatted
dates on which the first record is retrieved under its date. -/
theorem convert_formats_dates_to_trends_witness :
    (([⟨daysFromCivil 2024 1 1, 3⟩, ⟨daysFromCivil 2024 1 2, 5⟩] :
        List ForecastRecord).map fun r => fmtMDY r.ds).Nodup
    ∧ dictLookup
        (convert [⟨daysFromCivil 2024 1 1, 3⟩, ⟨daysFromCivil 2024 1 2, 5⟩])
        (fmtMDY (daysFromCivil 2024 1 1)) = some 3 :=
  ⟨by decide,
    convert_formats_dates_to_trends.1
      [⟨daysFromCivil 2024 1 1, 3⟩, ⟨daysFromCivil 2024 1 2, 5⟩] (by decide)
      ⟨daysFromCivil 2024 1 1, 3⟩ (by decide)⟩

/-- C4: `convert` applied to the empty sequence of forecast records
returns the empty mapping. -/
theorem convert_empty_eq_empty : convert [] = [] := rfl

/-- C5: `train ticker` stores the fitted artifact at the deterministic
path derived from the ticker alone and leaves every other ticker's
artifact unchanged. -/
theorem train_writes_only_its_ticker
    (download : String → Nat → Nat → List OhlcRow)
    (fit : List PricePoint → ProphetModel)
    (today : Nat) (ticker : String) (fs : FS) :
    fsLookup (train download fit today ticker fs) (modelPath ticker)
      = some (Entry.model
          (fit (prepareForecastFrame (download ticker startDate today))))
    ∧ ∀ t', t' ≠ ticker →
        fsLookup (train download fit today ticker fs) (modelPath t')
          = fsLookup fs (modelPath t') := by
  constructor
  · unfold train
    exact fsLookup_fsWrite_self _ _ _
  · intro t' ht
    unfold train
    apply fsLookup_fsWrite_ne
    intro hp
    exact ht (modelPath_injective hp)

/-- Witness for C5: training `"MSFT"` does not touch `"AAPL"`'s
artifact path. -/
theorem train_writes_only_its_ticker_witness :
    ("AAPL" : String) ≠ "MSFT"
    ∧ fsLookup (train demoDownload demoFit startDate "MSFT" [])
        (modelPath "AAPL") = fsLookup [] (modelPath "AAPL") :=
  ⟨by decide,
    (train_writes_only_its_ticker demoDownload demoFit startDate "MSFT"
        []).2 "AAPL" (by decide)⟩

/-- C6: re-training a ticker that already has a persisted artifact
replaces it with the newly fitted model, and a subsequent `predict` reads
that newest fit: its returned value is the one obtained from the fresh
fit, independent of the prior filesystem contents. -/
theorem retrain_overwrites_artifact
    (download : String → Nat → Nat → List OhlcRow)
    (fit : List PricePoint → ProphetModel)
    (today : Nat) (ticker : String) (days : Nat) (fs : FS) (e₀ : Entry)
    (h : fsLookup fs (modelPath ticker) = some e₀) :
    fsLookup (train download fit today ticker fs) (modelPath ticker)
      = some (Entry.model
          (fit (prepareForecastFrame (download ticker startDate today))))
    ∧ POutcome.value
        (predict today ticker days (train download fit today ticker fs))
      = POutcome.value
        (predict today ticker days (train download fit today ticker [])) := by
  have hload : fsLookup (train download fit today ticker fs)
      (modelPath ticker)
      = some (Entry.model
          (fit (prepareForecastFrame (download ticker startDate today)))) := by
    unfold train
    exact fsLookup_fsWrite_self _ _ _
  have hload' : fsLookup (train download fit today ticker [])
      (modelPath ticker)
      = some (Entry.model
          (fit (prepareForecastFrame (download ticker startDate today)))) := by
    unfold train
    exact fsLookup_fsWrite_self _ _ _
  refine ⟨hload, ?_⟩
  rw [predict_found today ticker days _ _ hload,
    predict_found today ticker days _ _ hload']
  rfl

/-- Witness for C6: re-training over an existing `"MSFT"` artifact. -/
theorem retrain_overwrites_artifact_witness :
    fsLookup demoFS (modelPath "MSFT") = some (Entry.model constModel)
    ∧ (fsLookup (train demoDownload demoFit startDate "MSFT" demoFS)
          (modelPath "MSFT")
        = some (Entry.model
            (demoFit (prepareForecastFrame
              (demoDownload "MSFT" startDate startDate))))
      ∧ POutcome.value
          (predict startDate "MSFT" 7
            (train demoDownload demoFit startDate "MSFT" demoFS))
        = POutcome.value
          (predict startDate "MSFT" 7
            (train demoDownload demoFit startDate "MSFT" []))) :=
  ⟨rfl,
    retrain_overwrites_artifact demoDownload demoFit startDate "MSFT" 7
      demoFS (Entry.model constModel) rfl⟩

/-- C7: the command-line entry point unconditionally trains, then
predicts, then converts, then prints: the predict stage always finds the
artifact the train stage just wrote, so the pipeline reaches the final
print of `convert`'s mapping on every input. -/
theorem main_fixed_sequence
    (download : String → Nat → Nat → List OhlcRow)
    (fit : List PricePoint → ProphetModel)
    (today : Nat) (ticker : String) (days : Nat) (fs : FS) :
    ∃ l fs₂,
      predict today ticker days (train download fit today ticker fs)
        = POutcome.ok (PyValue.records l) fs₂
      ∧ mainRun download fit today ticker days fs = some (convert l, fs₂) := by
  have hload : fsLookup (train download fit today ticker fs)
      (modelPath ticker)
      = some (Entry.model
          (fit (prepareForecastFrame (download ticker startDate today)))) := by
    unfold train
    exact fsLookup_fsWrite_self _ _ _
  refine ⟨_, _, predict_found today ticker days _ _ hload, ?_⟩
  unfold mainRun
  simp only [predict_found today ticker days _ _ hload]

/-- C8: on the success path `predict` runs the loaded model over the
dense daily grid from the fixed start date 2020-01-01 through
today + days, returns the tail of that full-grid forecast, and writes
exactly the two ticker-named figure files: both exist afterwards and
every other path is untouched. -/
theorem predict_success_grid_and_two_figures
    (today : Nat) (ticker : String) (days : Nat) (fs : FS)
    (m : ProphetModel)
    (h : fsLookup fs (modelPath ticker) = some (Entry.model m)) :
    ∃ fs',
      predict today ticker days fs
        = POutcome.ok
            (PyValue.records (tailN days
              ((dateRange startDate (today + days)).map
                fun z => ForecastRecord.mk z (m.trendAt z)))) fs'
      ∧ fsLookup fs' (plotPath ticker) = some Entry.png
      ∧ fsLookup fs' (componentsPath ticker) = some Entry.png
      ∧ ∀ p, p ≠ plotPath ticker → p ≠ componentsPath ticker →
          fsLookup fs' p = fsLookup fs p := by
  refine ⟨_, predict_found today ticker days fs m h, ?_, ?_, ?_⟩
  · rw [fsLookup_fsWrite_ne _ _ _ _ (plotPath_ne_componentsPath ticker)]
    exact fsLookup_fsWrite_self _ _ _
  · exact fsLookup_fsWrite_self _ _ _
  · intro p hp1 hp2
    rw [fsLookup_fsWrite_ne _ _ _ _ hp2, fsLookup_fsWrite_ne _ _ _ _ hp1]

/-- Witness for C8: predicting on a filesystem holding an `"MSFT"`
artifact. -/
theorem predict_success_grid_and_two_figures_witness :
    fsLookup demoFS (modelPath "MSFT") = some (Entry.model constModel)
    ∧ ∃ fs',
        predict startDate "MSFT" 7 demoFS
          = POutcome.ok
              (PyValue.records (tailN 7
                ((dateRange startDate (startDate + 7)).map
                  fun z => ForecastRecord.mk z (constModel.trendAt z)))) fs'
        ∧ fsLookup fs' (plotPath "MSFT") = some Entry.png
        ∧ fsLookup fs' (componentsPath "MSFT") = some Entry.png
        ∧ ∀ p, p ≠ plotPath "MSFT" → p ≠ componentsPath "MSFT" →
            fsLookup fs' p = fsLookup demoFS p :=
  ⟨rfl,
    predict_success_grid_and_two_figures startDate "MSFT" 7 demoFS
      constModel rfl⟩

/-- C9: when the formatted dates of the input records are pairwise
distinct, the keys of the mapping returned by `convert` appear in exactly
the order of the records in the input list. -/
theorem convert_key_order_follows_input :
    ∀ l : List ForecastRecord,
      (l.map fun r => fmtMDY r.ds).Nodup →
      (convert l).map Prod.fst = l.map fun r => fmtMDY r.ds := by
  intro l hnd
  unfold convert
  rw [convert_foldl_keys l [] hnd (fun r _ => by simp)]
  simp

/-- Witness for C9: two records with distinct dates keep their order. -/
theorem convert_key_order_follows_input_witness :
    (([⟨daysFromCivil 2024 1 2, 3⟩, ⟨daysFromCivil 2024 1 1, 5⟩] :
        List ForecastRecord).map fun r => fmtMDY r.ds).Nodup
    ∧ (convert [⟨daysFromCivil 2024 1 2, 3⟩, ⟨daysFromCivil 2024 1 1, 5⟩]).map
          Prod.fst
        = ([⟨daysFromCivil 2024 1 2, 3⟩, ⟨daysFromCivil 2024 1 1, 5⟩] :
            List ForecastRecord).map fun r => fmtMDY r.ds :=
  ⟨by decide,
    convert_key_order_follows_input
      [⟨daysFromCivil 2024 1 2, 3⟩, ⟨daysFromCivil 2024 1 1, 5⟩]
      (by decide)⟩

/-- C10: the value `convert` keeps under a formatted date is the trend of
the last input record with that date, so with duplicate dates the mapping
has strictly fewer entries than the input: on two records that both
format to "01/01/2024" only the second trend survives. -/
theorem convert_duplicate_dates_last_wins :
    (∀ (l : List ForecastRecord) (k : String),
        dictLookup (convert l) k = lastMatchTrend k l)
    ∧ convert [⟨daysFromCivil 2024 1 1, 3⟩, ⟨daysFromCivil 2024 1 1, 5⟩]
        = [("01/01/2024", 5)]
    ∧ (convert [⟨daysFromCivil 2024 1 1, 3⟩,
          ⟨daysFromCivil 2024 1 1, 5⟩]).length
        < ([⟨daysFromCivil 2024 1 1, 3⟩, ⟨daysFromCivil 2024 1 1, 5⟩] :
            List ForecastRecord).length :=
  ⟨fun l k => convert_lookup l k, rfl, by decide⟩

end StockPredictor
